import Mathlib

/-!
# Brick: `BrowserWindow` (Linux/GDK back end)

A shallow embedding of `src/brick/window/browser_window_linux.cc`.

* The wrapper object is the structure `BrowserWindow`; every member function
  is a Lean function of the same name in the namespace `BrowserWindow`.
* A member function transforms a `Run`: the wrapper's fields, the list of
  effectful toolkit calls issued so far (in program order) and the log lines
  written so far.
* What the toolkit and the other collaborators answer when the code queries
  them (screen geometry, frame extents, active window, ...) is read from a
  `Native` snapshot handed to each member function.
* C++ `int` is embedded as `Int`.  Signed overflow is undefined behaviour in
  C++, so the embedding describes exactly the executions whose arithmetic
  stays in range.  `/` on `int` is `Int.tdiv` (truncation toward zero).
-/

namespace Brick

/-- A `GdkWindow*` that is not `NULL`, identified by a number. -/
abbrev GdkWindow := Nat

/-- The X11 window id type `CefWindowHandle` (an `unsigned long`). -/
abbrev CefWindowHandle := Nat

/-- The CEF rectangle `CefRect(x, y, width, height)`. -/
structure CefRect where
  x : Int
  y : Int
  width : Int
  height : Int
  deriving DecidableEq, Repr

/-- The GDK rectangle, as filled by `gdk_window_get_frame_extents`. -/
structure GdkRectangle where
  x : Int
  y : Int
  width : Int
  height : Int
  deriving DecidableEq, Repr

/-- The four size fields of `GdkGeometry`.  `none` is a field the code never
wrote (an indeterminate value of an uninitialised local). -/
structure GdkGeometry where
  min_width : Option Int
  min_height : Option Int
  max_width : Option Int
  max_height : Option Int
  deriving DecidableEq, Repr

/-- `GdkGeometry hints = {0};` -/
def GdkGeometry.zero : GdkGeometry :=
  { min_width := some 0, min_height := some 0, max_width := some 0, max_height := some 0 }

/-- `GDK_HINT_MIN_SIZE` of `GdkWindowHints`. -/
def GDK_HINT_MIN_SIZE : Nat := 1 <<< 1

/-- `GDK_HINT_MAX_SIZE` of `GdkWindowHints`. -/
def GDK_HINT_MAX_SIZE : Nat := 1 <<< 2

/-- `GDK_WINDOW_STATE_WITHDRAWN` of `GdkWindowState`. -/
def GDK_WINDOW_STATE_WITHDRAWN : Nat := 1 <<< 0

/-- `GDK_WINDOW_STATE_ICONIFIED` of `GdkWindowState`. -/
def GDK_WINDOW_STATE_ICONIFIED : Nat := 1 <<< 1

/-- `GDK_STRUCTURE_MASK` of `GdkEventMask`. -/
def GDK_STRUCTURE_MASK : Nat := 1 <<< 15

/-- `GDK_VISIBILITY_NOTIFY_MASK` of `GdkEventMask`. -/
def GDK_VISIBILITY_NOTIFY_MASK : Nat := 1 <<< 17

/-- `GdkWindowTypeHint`, only the value the code uses. -/
inductive GdkWindowTypeHint where
  | GDK_WINDOW_TYPE_HINT_DIALOG
  deriving DecidableEq, Repr

/-- `GdkVisibilityState`. -/
inductive GdkVisibilityState where
  | GDK_VISIBILITY_UNOBSCURED
  | GDK_VISIBILITY_PARTIAL
  | GDK_VISIBILITY_FULLY_OBSCURED
  deriving DecidableEq, Repr

/-- The events `OnNativeEvent` distinguishes by `event->type`; `OTHER` stands
for every other `GdkEventType`, given by its number. -/
inductive BrowserWindowNativeEvent where
  | GDK_DESTROY
  | GDK_MAP
  | GDK_UNMAP
  | GDK_VISIBILITY_NOTIFY (state : GdkVisibilityState)
  | OTHER (type : Int)
  deriving DecidableEq, Repr

/-- Modelled from the spec: the enumeration `platform_util::DesktopEnvironment`
is declared in `brick/platform_util.h`, which is not under `src/`.  The code
compares against the KDE and the Unity value only; `OTHER` stands for every
other environment. -/
inductive DesktopEnvironment where
  | DESKTOP_ENVIRONMENT_KDE
  | DESKTOP_ENVIRONMENT_UNITY
  | OTHER
  deriving DecidableEq, Repr

/-- Modelled from the spec: the enumeration `BrowserWindow::Position` is
declared in `brick/window/browser_window.h`, which is not under `src/`.  The
nine named values are the labels of the `switch` in `MoveResize`; `UNKNOWN raw`
is a value of the enumeration type that is none of the nine (it reaches the
`default` label). -/
inductive Position where
  | NORTH_WEST
  | NORTH
  | NORTH_EAST
  | WEST
  | CENTER
  | EAST
  | SOUTH_WEST
  | SOUTH
  | SOUTH_EAST
  | UNKNOWN (raw : Int)
  deriving DecidableEq, Repr

/-- The effectful calls the wrapper issues, with their arguments.  The window
argument is the value of `window_handler_` at the call (`none` is `NULL`). -/
inductive NativeCall where
  | XFlush
  | AddRef
  | Release
  | g_object_set_data (w : Option GdkWindow) (key : String)
  | gdk_window_set_icon_list (w : Option GdkWindow)
  | gdk_window_set_events (w : Option GdkWindow) (mask : Nat)
  | gdk_window_resize (w : Option GdkWindow) (width height : Int)
  | gdk_window_set_geometry_hints (w : Option GdkWindow) (hints : GdkGeometry) (mask : Nat)
  | gdk_window_set_title (w : Option GdkWindow) (title : String)
  | gdk_window_show (w : Option GdkWindow)
  | gdk_window_hide (w : Option GdkWindow)
  | gdk_window_destroy (w : Option GdkWindow)
  | gdk_window_set_type_hint (w : Option GdkWindow) (hint : GdkWindowTypeHint)
  | gdk_window_focus (w : Option GdkWindow) (timestamp : Int)
  | gdk_window_move (w : Option GdkWindow) (x y : Int)
  | gdk_flush
  | gdk_window_move_resize (w : Option GdkWindow) (x y width height : Int)
  | gdk_window_set_keep_above (w : Option GdkWindow) (setting : Bool)
  | gdk_window_stick (w : Option GdkWindow)
  | gdk_window_unstick (w : Option GdkWindow)
  | gdk_window_fullscreen (w : Option GdkWindow)
  | gdk_window_unfullscreen (w : Option GdkWindow)
  deriving DecidableEq, Repr

/-- Severity of a `LOG(...)` line. -/
inductive LogLevel where
  | ERROR
  | WARNING
  deriving DecidableEq, Repr

/-- What the toolkit and the other collaborators answer while one member
function runs. -/
structure Native where
  /-- `gdk_window_foreign_new(window)`; `none` is `NULL`. -/
  gdk_window_foreign_new : CefWindowHandle → Option GdkWindow
  /-- Modelled from the spec: `window_util::GetDeviceScaleFactor` is defined in
  `brick/window_util`, which is not under `src/`.  `scaled v` is the `int`
  obtained from `v * GetDeviceScaleFactor()` by the conversion back to `int`. -/
  scaled : Int → Int
  /-- `gdk_window_get_frame_extents(window_handler_, &extents)`. -/
  frame_extents : GdkRectangle
  /-- `gdk_screen_width()`. -/
  gdk_screen_width : Int
  /-- `gdk_screen_height()`. -/
  gdk_screen_height : Int
  /-- `gdk_screen_get_monitor_geometry` for the monitor at the window. -/
  monitor_rect : GdkRectangle
  /-- `gdk_window_get_state(window_handler_)`, a bit set. -/
  gdk_window_get_state : Nat
  /-- `gdk_screen_get_active_window(...)`; `none` is `NULL`. -/
  active_window : Option GdkWindow
  /-- `GDK_WINDOW_XID(w)`. -/
  GDK_WINDOW_XID : Option GdkWindow → Nat
  /-- `std::time(nullptr)`. -/
  time_now : Int
  /-- `gdk_x11_display_get_user_time(...)`. -/
  user_time : Int
  /-- Modelled from the spec: `OnShow` is declared in
  `brick/window/browser_window.h` and defined outside `src/`.  Its result says
  whether it handled the request; it is taken to leave the data members of the
  wrapper as they are. -/
  OnShow : Bool
  /-- Modelled from the spec: `OnHide` is declared in
  `brick/window/browser_window.h` and defined outside `src/`.  Its result says
  whether it handled the request; it is taken to leave the data members of the
  wrapper as they are. -/
  OnHide : Bool

/-- The data members of `BrowserWindow`. -/
structure BrowserWindow where
  window_handler_ : Option GdkWindow
  hided_ : Bool
  focused_ : Bool
  visible_ : Bool
  in_fullscreen_ : Bool
  resizable_ : Bool
  closable_ : Bool
  sticked_ : Bool
  restore_last_position_ : Bool
  last_x_ : Int
  last_y_ : Int
  on_kde_ : Bool
  on_unity_ : Bool
  deriving DecidableEq, Repr

/-- The wrapper together with what it has done so far. -/
structure Run where
  win : BrowserWindow
  calls : List NativeCall
  logs : List (LogLevel × String)
  deriving DecidableEq, Repr

/-- Issue one toolkit call. -/
def Run.call (r : Run) (c : NativeCall) : Run :=
  { r with calls := r.calls ++ [c] }

/-- Write one log line. -/
def Run.log (r : Run) (l : LogLevel) (msg : String) : Run :=
  { r with logs := r.logs ++ [(l, msg)] }

/-- A wrapper that has not done anything yet. -/
def Run.start (s : BrowserWindow) : Run :=
  { win := s, calls := [], logs := [] }

namespace BrowserWindow

/-- `BrowserWindow::BrowserWindow()`; `environment` is the result of
`platform_util::GetDesktopEnvironment()`. -/
def new (environment : DesktopEnvironment) : BrowserWindow :=
  { window_handler_ := none
    hided_ := false
    focused_ := true
    visible_ := true
    in_fullscreen_ := false
    resizable_ := true
    closable_ := true
    sticked_ := false
    restore_last_position_ := false
    last_x_ := 0
    last_y_ := 0
    on_kde_ := decide (environment = DesktopEnvironment.DESKTOP_ENVIRONMENT_KDE)
    on_unity_ := decide (environment = DesktopEnvironment.DESKTOP_ENVIRONMENT_UNITY) }

/-- `bool BrowserWindow::WrapNative(CefWindowHandle window)`. -/
def WrapNative (n : Native) (window : CefWindowHandle) (r : Run) : Bool × Run :=
  if r.win.window_handler_.isSome then
    (false, r.log LogLevel.ERROR
      "Browser window already have native window. Can't wrap one more window.")
  else
    let r1 := r.call NativeCall.XFlush
    let r2 : Run := { r1 with win := { r1.win with window_handler_ := n.gdk_window_foreign_new window } }
    if r2.win.window_handler_.isSome then
      let r3 := r2.call NativeCall.AddRef
      let r4 := r3.call (NativeCall.g_object_set_data r3.win.window_handler_ "wrapper")
      let r5 := r4.call (NativeCall.gdk_window_set_icon_list r4.win.window_handler_)
      let r6 := r5.call (NativeCall.gdk_window_set_events r5.win.window_handler_
        (GDK_STRUCTURE_MASK ||| GDK_VISIBILITY_NOTIFY_MASK))
      (true, r6)
    else
      (false, r2.log LogLevel.ERROR "Browser window has been destroyed. Can't wrap.")

/-- `void BrowserWindow::FrozeSize(int width, int height)`. -/
def FrozeSize (n : Native) (width height : Int) (r : Run) : Run :=
  if r.win.resizable_ = true ∧ width ≠ 0 ∧ height ≠ 0 then
    let width := n.scaled width
    let height := n.scaled height
    let r1 : Run := { r with win := { r.win with resizable_ := false } }
    let hints : GdkGeometry :=
      { min_width := some width, min_height := some height
        max_width := some width, max_height := some height }
    r1.call (NativeCall.gdk_window_set_geometry_hints r1.win.window_handler_ hints
      (GDK_HINT_MIN_SIZE ||| GDK_HINT_MAX_SIZE))
  else if r.win.resizable_ = false then
    let r1 : Run := { r with win := { r.win with resizable_ := true } }
    r1.call (NativeCall.gdk_window_set_geometry_hints r1.win.window_handler_ GdkGeometry.zero
      (GDK_HINT_MIN_SIZE ||| GDK_HINT_MAX_SIZE))
  else
    r

/-- `void BrowserWindow::Resize(int width, int height)`. -/
def Resize (n : Native) (width height : Int) (r : Run) : Run :=
  let need_froze_size := !r.win.resizable_
  let r1 := if need_froze_size then FrozeSize n 0 0 r else r
  let r2 := r1.call (NativeCall.gdk_window_resize r1.win.window_handler_
    (n.scaled width) (n.scaled height))
  if need_froze_size then FrozeSize n width height r2 else r2

/-- `void BrowserWindow::SetMinSize(int width, int height)`. -/
def SetMinSize (n : Native) (width height : Int) (r : Run) : Run :=
  let width := n.scaled width
  let height := n.scaled height
  let hints : GdkGeometry :=
    { min_width := some width, min_height := some height
      max_width := none, max_height := none }
  r.call (NativeCall.gdk_window_set_geometry_hints r.win.window_handler_ hints GDK_HINT_MIN_SIZE)

/-- The C string `s.c_str()` as the toolkit reads it: the characters of `s`
before its first NUL. -/
def c_str (s : String) : String :=
  String.mk (s.toList.takeWhile (fun c => c ≠ Char.ofNat 0))

/-- `void BrowserWindow::SetTitle(std::string title)`. -/
def SetTitle (title : String) (r : Run) : Run :=
  r.call (NativeCall.gdk_window_set_title r.win.window_handler_ (c_str title))

/-- `void BrowserWindow::SetActive()`.  The local `time` is a `std::time_t`;
the parameter of `gdk_window_focus` is a `guint32`, so the toolkit receives
`time` reduced modulo 2^32. -/
def SetActive (n : Native) (r : Run) : Run :=
  let time : Int := if r.win.on_kde_ then n.time_now else n.user_time
  r.call (NativeCall.gdk_window_focus r.win.window_handler_ (time % 2 ^ 32))

/-- `bool BrowserWindow::IsActive()`. -/
def IsActive (n : Native) (r : Run) : Bool :=
  match n.active_window with
  | none => true
  | some active_window =>
    decide (n.GDK_WINDOW_XID r.win.window_handler_ = n.GDK_WINDOW_XID (some active_window))

/-- `void BrowserWindow::SaveRestorePosition(bool save)`. -/
def SaveRestorePosition (n : Native) (save : Bool) (r : Run) : Run :=
  if save then
    let extents := n.frame_extents
    { r with win := { r.win with
        last_x_ := extents.x, last_y_ := extents.y, restore_last_position_ := true } }
  else if r.win.restore_last_position_ = true
      ∧ r.win.last_x_ ≥ 0 ∧ r.win.last_x_ < n.gdk_screen_width - 60
      ∧ r.win.last_y_ ≥ 0 ∧ r.win.last_y_ < n.gdk_screen_height - 60 then
    let r1 : Run := { r with win := { r.win with restore_last_position_ := false } }
    r1.call (NativeCall.gdk_window_move r1.win.window_handler_ r1.win.last_x_ r1.win.last_y_)
  else
    r

/-- `void BrowserWindow::Show()`. -/
def Show (n : Native) (r : Run) : Run :=
  let handled := n.OnShow
  if !handled then
    let r1 := r.call (NativeCall.gdk_window_show r.win.window_handler_)
    SaveRestorePosition n false r1
  else
    r

/-- `void BrowserWindow::Hide()`. -/
def Hide (n : Native) (r : Run) : Run :=
  let handled := n.OnHide
  if !handled then
    let r1 := SaveRestorePosition n true r
    r1.call (NativeCall.gdk_window_hide r1.win.window_handler_)
  else
    r

/-- `void BrowserWindow::Present()`. -/
def Present (n : Native) (r : Run) : Run :=
  let r1 := Show n r
  if !r1.win.hided_ then SetActive n r1 else r1

/-- `void BrowserWindow::Close()`. -/
def Close (r : Run) : Run :=
  r.call (NativeCall.gdk_window_destroy r.win.window_handler_)

/-- `void BrowserWindow::Popupping()`. -/
def Popupping (r : Run) : Run :=
  r.call (NativeCall.gdk_window_set_type_hint r.win.window_handler_
    GdkWindowTypeHint.GDK_WINDOW_TYPE_HINT_DIALOG)

/-- `void BrowserWindow::OnNativeEvent(BrowserWindowNativeEvent event)`. -/
def OnNativeEvent (n : Native) (event : BrowserWindowNativeEvent) (r : Run) : Run :=
  match event with
  | BrowserWindowNativeEvent.GDK_DESTROY => r.call NativeCall.Release
  | BrowserWindowNativeEvent.GDK_MAP =>
    SetActive n { r with win := { r.win with hided_ := false } }
  | BrowserWindowNativeEvent.GDK_UNMAP => { r with win := { r.win with hided_ := true } }
  | BrowserWindowNativeEvent.GDK_VISIBILITY_NOTIFY state =>
    { r with win := { r.win with
        visible_ := decide (state ≠ GdkVisibilityState.GDK_VISIBILITY_FULLY_OBSCURED) } }
  | BrowserWindowNativeEvent.OTHER _ => r

/-- `void BrowserWindow::ToggleVisibility()`. -/
def ToggleVisibility (n : Native) (r : Run) : Run :=
  let is_hided : Bool :=
    r.win.hided_
    || !r.win.visible_
    || decide (n.gdk_window_get_state
        &&& (GDK_WINDOW_STATE_ICONIFIED ||| GDK_WINDOW_STATE_WITHDRAWN) ≠ 0)
  if is_hided || !IsActive n r then Present n r else Hide n r

/-- `void BrowserWindow::FlushChanges()`. -/
def FlushChanges (r : Run) : Run :=
  r.call NativeCall.gdk_flush

/-- `void BrowserWindow::Stick()`. -/
def Stick (r : Run) : Run :=
  let r1 : Run := { r with win := { r.win with sticked_ := true } }
  let r2 := r1.call (NativeCall.gdk_window_set_keep_above r1.win.window_handler_ true)
  r2.call (NativeCall.gdk_window_stick r2.win.window_handler_)

/-- `void BrowserWindow::UnStick()`. -/
def UnStick (r : Run) : Run :=
  let r1 : Run := { r with win := { r.win with sticked_ := false } }
  let r2 := r1.call (NativeCall.gdk_window_set_keep_above r1.win.window_handler_ false)
  r2.call (NativeCall.gdk_window_unstick r2.win.window_handler_)

/-- `CefRect BrowserWindow::GetScreenRect()`. -/
def GetScreenRect (n : Native) (_r : Run) : CefRect :=
  let monitor_rect := n.monitor_rect
  { x := monitor_rect.x, y := monitor_rect.y
    width := monitor_rect.width, height := monitor_rect.height }

/-- `void BrowserWindow::MoveResize(Position position, int width, int height)`.
`PADDING` is the value of the macro `BROWSER_WINDOW_PADDING`, which is defined
in `brick/window/browser_window.h` (not under `src/`). -/
def MoveResize (PADDING : Int) (n : Native) (position : Position) (width height : Int)
    (r : Run) : Run :=
  let width := n.scaled width
  let height := n.scaled height
  let screen_rect := GetScreenRect n r
  let x := screen_rect.x
  let y := screen_rect.y
  let (x, y, r0) : Int × Int × Run :=
    match position with
    | Position.NORTH_WEST => (x + PADDING, y + PADDING, r)
    | Position.NORTH => (x + (screen_rect.width - width).tdiv 2, y + PADDING, r)
    | Position.NORTH_EAST => (x + (screen_rect.width - width - PADDING), y + PADDING, r)
    | Position.WEST => (x + PADDING, y + (screen_rect.height - height).tdiv 2, r)
    | Position.CENTER =>
      (x + (screen_rect.width - width).tdiv 2, y + (screen_rect.height - height).tdiv 2, r)
    | Position.EAST =>
      (x + (screen_rect.width - width - PADDING), y + (screen_rect.height - height).tdiv 2, r)
    | Position.SOUTH_WEST => (x + PADDING, y + (screen_rect.height - height - PADDING), r)
    | Position.SOUTH =>
      (x + (screen_rect.width - width).tdiv 2, y + (screen_rect.height - height - PADDING), r)
    | Position.SOUTH_EAST =>
      (x + (screen_rect.width - width - PADDING), y + (screen_rect.height - height - PADDING), r)
    | Position.UNKNOWN raw =>
      (x + PADDING, y + PADDING, r.log LogLevel.WARNING
        ("Unknown window position: " ++ toString raw ++ ", used NORTH_WEST"))
  let sticked := r0.win.sticked_
  let r1 := if r0.win.on_unity_ && sticked then UnStick r0 else r0
  let r2 := r1.call (NativeCall.gdk_window_move_resize r1.win.window_handler_ x y width height)
  if r2.win.on_unity_ && sticked then Stick r2 else r2

/-- `void BrowserWindow::Fullscreen()`. -/
def Fullscreen (r : Run) : Run :=
  let r1 := r.call (NativeCall.gdk_window_fullscreen r.win.window_handler_)
  { r1 with win := { r1.win with in_fullscreen_ := true } }

/-- `void BrowserWindow::UnFullscreen()`. -/
def UnFullscreen (r : Run) : Run :=
  let r1 := r.call (NativeCall.gdk_window_unfullscreen r.win.window_handler_)
  { r1 with win := { r1.win with in_fullscreen_ := false } }

/-- `bool BrowserWindow::IsInFullscreen()`. -/
def IsInFullscreen (r : Run) : Bool :=
  r.win.in_fullscreen_

end BrowserWindow

/-- One call of a member function of the wrapper, with its arguments. -/
inductive Op where
  | WrapNative (window : CefWindowHandle)
  | Resize (width height : Int)
  | SetMinSize (width height : Int)
  | FrozeSize (width height : Int)
  | SetTitle (title : String)
  | Present
  | Show
  | Hide
  | Close
  | Popupping
  | OnNativeEvent (event : BrowserWindowNativeEvent)
  | ToggleVisibility
  | SetActive
  | IsActive
  | SaveRestorePosition (save : Bool)
  | FlushChanges
  | MoveResize (position : Position) (width height : Int)
  | Stick
  | UnStick
  | GetScreenRect
  | Fullscreen
  | UnFullscreen
  | IsInFullscreen
  deriving DecidableEq, Repr

/-- Run one member function on the wrapper (the value it returns, if any, is
dropped). -/
def perform (PADDING : Int) (n : Native) (op : Op) (r : Run) : Run :=
  match op with
  | Op.WrapNative window => (BrowserWindow.WrapNative n window r).2
  | Op.Resize width height => BrowserWindow.Resize n width height r
  | Op.SetMinSize width height => BrowserWindow.SetMinSize n width height r
  | Op.FrozeSize width height => BrowserWindow.FrozeSize n width height r
  | Op.SetTitle title => BrowserWindow.SetTitle title r
  | Op.Present => BrowserWindow.Present n r
  | Op.Show => BrowserWindow.Show n r
  | Op.Hide => BrowserWindow.Hide n r
  | Op.Close => BrowserWindow.Close r
  | Op.Popupping => BrowserWindow.Popupping r
  | Op.OnNativeEvent event => BrowserWindow.OnNativeEvent n event r
  | Op.ToggleVisibility => BrowserWindow.ToggleVisibility n r
  | Op.SetActive => BrowserWindow.SetActive n r
  | Op.IsActive => r
  | Op.SaveRestorePosition save => BrowserWindow.SaveRestorePosition n save r
  | Op.FlushChanges => BrowserWindow.FlushChanges r
  | Op.MoveResize position width height =>
    BrowserWindow.MoveResize PADDING n position width height r
  | Op.Stick => BrowserWindow.Stick r
  | Op.UnStick => BrowserWindow.UnStick r
  | Op.GetScreenRect => r
  | Op.Fullscreen => BrowserWindow.Fullscreen r
  | Op.UnFullscreen => BrowserWindow.UnFullscreen r
  | Op.IsInFullscreen => r

/-- Run a sequence of member-function calls, each with the answers the toolkit
gives at that moment. -/
def performAll (PADDING : Int) : List (Native × Op) → Run → Run
  | [], r => r
  | (n, op) :: rest, r => performAll PADDING rest (perform PADDING n op r)

/-- The member functions that read or write the saved position
(`last_x_`, `last_y_`, `restore_last_position_`), directly or through a
callee. -/
def Op.usesSavedPosition : Op → Bool
  | Op.Present => true
  | Op.Show => true
  | Op.Hide => true
  | Op.ToggleVisibility => true
  | Op.SaveRestorePosition _ => true
  | _ => false

/-- The arguments of a call, when it is a `gdk_window_move_resize`. -/
def moveResizeArgs : NativeCall → Option (Option GdkWindow × Int × Int × Int × Int)
  | NativeCall.gdk_window_move_resize w x y width height => some (w, x, y, width, height)
  | _ => none

/-- The arguments of the `gdk_window_move_resize` calls in a list of calls, in
the order of the calls. -/
def moveResizeCalls (cs : List NativeCall) : List (Option GdkWindow × Int × Int × Int × Int) :=
  cs.filterMap moveResizeArgs

/-- The three columns of the nine-way placement. -/
inductive Column where
  | west
  | middle
  | east
  deriving DecidableEq, Repr

/-- The three rows of the nine-way placement. -/
inductive Row where
  | north
  | middle
  | south
  deriving DecidableEq, Repr

/-- The horizontal anchor of a position, in the spec's words: the three west
positions, NORTH/CENTER/SOUTH, the three east positions; a value outside the
nine is treated as NORTH_WEST. -/
def Position.column : Position → Column
  | Position.NORTH_WEST => Column.west
  | Position.WEST => Column.west
  | Position.SOUTH_WEST => Column.west
  | Position.NORTH => Column.middle
  | Position.CENTER => Column.middle
  | Position.SOUTH => Column.middle
  | Position.NORTH_EAST => Column.east
  | Position.EAST => Column.east
  | Position.SOUTH_EAST => Column.east
  | Position.UNKNOWN _ => Column.west

/-- The vertical anchor of a position, in the spec's words: the three north
positions, WEST/CENTER/EAST, the three south positions; a value outside the
nine is treated as NORTH_WEST. -/
def Position.row : Position → Row
  | Position.NORTH_WEST => Row.north
  | Position.NORTH => Row.north
  | Position.NORTH_EAST => Row.north
  | Position.WEST => Row.middle
  | Position.CENTER => Row.middle
  | Position.EAST => Row.middle
  | Position.SOUTH_WEST => Row.south
  | Position.SOUTH => Row.south
  | Position.SOUTH_EAST => Row.south
  | Position.UNKNOWN _ => Row.north

/-- The x of the placement, in the spec's words, for a monitor that starts at
`sx` and is `sw` wide and a window that is `w` wide. -/
def specX (PADDING sx sw w : Int) : Column → Int
  | Column.west => sx + PADDING
  | Column.middle => sx + (sw - w).tdiv 2
  | Column.east => sx + sw - w - PADDING

/-- The y of the placement, in the spec's words, for a monitor that starts at
`sy` and is `sh` high and a window that is `h` high. -/
def specY (PADDING sy sh h : Int) : Row → Int
  | Row.north => sy + PADDING
  | Row.middle => sy + (sh - h).tdiv 2
  | Row.south => sy + sh - h - PADDING

/-- A toolkit whose every answer is fixed: every X11 window can be wrapped
(window `k` gives the `GdkWindow` numbered `k + 100`), scale factor 1, a
1920x1080 screen that is also the only monitor, no active window. -/
def sampleNative : Native :=
  { gdk_window_foreign_new := fun window => some (window + 100)
    scaled := fun v => v
    frame_extents := { x := 40, y := 30, width := 800, height := 600 }
    gdk_screen_width := 1920
    gdk_screen_height := 1080
    monitor_rect := { x := 0, y := 0, width := 1920, height := 1080 }
    gdk_window_get_state := 0
    active_window := none
    GDK_WINDOW_XID := fun w => w.getD 0
    time_now := 1000
    user_time := 999
    OnShow := false
    OnHide := false }

/-- A freshly constructed wrapper (neither KDE nor Unity) that wraps the
`GdkWindow` numbered 7. -/
def sampleWindow : BrowserWindow :=
  { BrowserWindow.new DesktopEnvironment.OTHER with window_handler_ := some 7 }

/-- The condition for restoring the position, in the spec's words: a restore is
pending and the saved position satisfies `0 <= last_x < screen_width-60` and
`0 <= last_y < screen_height-60`. -/
def restoreDue (n : Native) (s : BrowserWindow) : Prop :=
  s.restore_last_position_ = true
  ∧ (0 ≤ s.last_x_ ∧ s.last_x_ < n.gdk_screen_width - 60)
  ∧ (0 ≤ s.last_y_ ∧ s.last_y_ < n.gdk_screen_height - 60)

instance (n : Native) (s : BrowserWindow) : Decidable (restoreDue n s) := by
  unfold restoreDue
  infer_instance

/-- The condition for hiding in `ToggleVisibility`, in the spec's words: the
hidden flag is false, the visible flag is true, the native window state is
neither iconified nor withdrawn, and the window is active. -/
def hidesOnToggle (n : Native) (r : Run) : Prop :=
  r.win.hided_ = false
  ∧ r.win.visible_ = true
  ∧ (n.gdk_window_get_state.testBit 1 = false ∧ n.gdk_window_get_state.testBit 0 = false)
  ∧ BrowserWindow.IsActive n r = true

instance (n : Native) (r : Run) : Decidable (hidesOnToggle n r) := by
  unfold hidesOnToggle
  infer_instance

/-- A toolkit that reports the window frame at (-10, 20), partly off the left
edge of the screen; every other answer as in `sampleNative`. -/
def offScreenNative : Native :=
  { sampleNative with frame_extents := { x := -10, y := 20, width := 800, height := 600 } }

end Brick

namespace Brick
open BrowserWindow



/-! ## Wrapping a native window -/

/-- C1, as stated, fails: the toolkit can obtain the native window for X11
window 5 (it answers `GdkWindow` 105), yet `WrapNative` on a wrapper that
already wraps `GdkWindow` 7 returns false, stores nothing and issues no
toolkit call. -/
theorem WrapNative_refuses_second_window :
    sampleNative.gdk_window_foreign_new 5 = some 105
    ∧ (WrapNative sampleNative 5 (Run.start sampleWindow)).1 = false
    ∧ (WrapNative sampleNative 5 (Run.start sampleWindow)).2.win.window_handler_ = some 7
    ∧ (WrapNative sampleNative 5 (Run.start sampleWindow)).2.calls = [] := by
  decide

/-- C1, amended: `WrapNative` returns false exactly when the wrapper already
holds a native window or `gdk_window_foreign_new` yields no window; on a
wrapper that holds no native window, for every handle whose native window can
be obtained, it returns true and stores that window as the wrapper's handle. -/
theorem WrapNative_result (n : Native) (window : CefWindowHandle) (r : Run) :
    ((WrapNative n window r).1 = false ↔
      (r.win.window_handler_ ≠ none ∨ n.gdk_window_foreign_new window = none))
    ∧ (∀ g : GdkWindow, r.win.window_handler_ = none →
        n.gdk_window_foreign_new window = some g →
        (WrapNative n window r).1 = true
        ∧ (WrapNative n window r).2.win.window_handler_ = some g) := by
  constructor
  · cases hw : r.win.window_handler_ with
    | some g0 => simp [WrapNative, hw]
    | none =>
      cases hf : n.gdk_window_foreign_new window with
      | none => simp [WrapNative, hw, hf, Run.call, Run.log]
      | some g => simp [WrapNative, hw, hf, Run.call]
  · intro g hw hf
    simp [WrapNative, hw, hf, Run.call]

/-- Witness for `WrapNative_result`: a fresh wrapper wraps X11 window 5. -/
theorem WrapNative_result_witness :
    (WrapNative sampleNative 5 (Run.start (BrowserWindow.new DesktopEnvironment.OTHER))).1 = true
    ∧ (WrapNative sampleNative 5
        (Run.start (BrowserWindow.new DesktopEnvironment.OTHER))).2.win.window_handler_
      = some 105 :=
  (WrapNative_result sampleNative 5
    (Run.start (BrowserWindow.new DesktopEnvironment.OTHER))).2 105 rfl rfl

/-! ## Freezing the size -/

/-- C9: `FrozeSize` is a toggle.  On a non-resizable window it makes the window
resizable and issues one hint call with all-zero min/max sizes, whatever width
and height are passed; for non-zero width and height two successive calls give
back the original resizable flag; with a zero width or a zero height a
resizable window is left as it is and no toolkit call is issued. -/
theorem FrozeSize_toggle (n n2 : Native) (width height : Int) (r : Run) :
    (r.win.resizable_ = false →
      (FrozeSize n width height r).win.resizable_ = true
      ∧ (FrozeSize n width height r).calls = r.calls ++
          [NativeCall.gdk_window_set_geometry_hints r.win.window_handler_ GdkGeometry.zero
            (GDK_HINT_MIN_SIZE ||| GDK_HINT_MAX_SIZE)])
    ∧ (width ≠ 0 → height ≠ 0 →
      (FrozeSize n2 width height (FrozeSize n width height r)).win.resizable_
        = r.win.resizable_)
    ∧ (width = 0 ∨ height = 0 → r.win.resizable_ = true →
      FrozeSize n width height r = r) := by
  refine ⟨?_, ?_, ?_⟩
  · intro hr
    simp [FrozeSize, hr, Run.call]
  · intro hw hh
    cases hr : r.win.resizable_ <;> simp [FrozeSize, hr, hw, hh, Run.call]
  · intro hz hr
    rcases hz with hz | hz <;> simp [FrozeSize, hr, hz]

/-- Witness for `FrozeSize_toggle`: a frozen window, width 800, height 0. -/
theorem FrozeSize_toggle_witness :
    (FrozeSize sampleNative 800 0
        (Run.start { sampleWindow with resizable_ := false })).win.resizable_ = true
    ∧ (FrozeSize sampleNative 800 0
        (Run.start { sampleWindow with resizable_ := false })).calls
      = [NativeCall.gdk_window_set_geometry_hints (some 7) GdkGeometry.zero 6] :=
  (FrozeSize_toggle sampleNative sampleNative 800 0
    (Run.start { sampleWindow with resizable_ := false })).1 rfl

/-! ## Resizing a frozen window -/

/-- C3, as stated, fails: `Resize(0, 5)` on a frozen (non-resizable) window
returns with the window resizable, and the last toolkit call is the resize, not
a hint call that freezes the size again. -/
theorem Resize_zero_width_unfreezes :
    (Run.start { sampleWindow with resizable_ := false }).win.resizable_ = false
    ∧ (Resize sampleNative 0 5
        (Run.start { sampleWindow with resizable_ := false })).win.resizable_ = true
    ∧ (Resize sampleNative 0 5 (Run.start { sampleWindow with resizable_ := false })).calls
      = [NativeCall.gdk_window_set_geometry_hints (some 7) GdkGeometry.zero 6,
         NativeCall.gdk_window_resize (some 7) 0 5] := by
  decide

/-- C3, amended: for every wrapper state, width and height such that the window
is resizable or both width and height are non-zero, `Resize` leaves every field
of the wrapper, the resizable flag among them, as it was.  A frozen window is
unfrozen (zero hints), resized, and frozen again with min and max size both
equal to the size passed to the native resize; a resizable window is only
resized and stays resizable, whatever the width and height. -/
theorem Resize_keeps_resizable (n : Native) (width height : Int) (r : Run)
    (h : r.win.resizable_ = true ∨ (width ≠ 0 ∧ height ≠ 0)) :
    (Resize n width height r).win.resizable_ = r.win.resizable_
    ∧ (Resize n width height r).win = r.win
    ∧ (r.win.resizable_ = false →
      (Resize n width height r).calls = r.calls ++
        [NativeCall.gdk_window_set_geometry_hints r.win.window_handler_ GdkGeometry.zero
            (GDK_HINT_MIN_SIZE ||| GDK_HINT_MAX_SIZE),
         NativeCall.gdk_window_resize r.win.window_handler_ (n.scaled width) (n.scaled height),
         NativeCall.gdk_window_set_geometry_hints r.win.window_handler_
            { min_width := some (n.scaled width), min_height := some (n.scaled height)
              max_width := some (n.scaled width), max_height := some (n.scaled height) }
            (GDK_HINT_MIN_SIZE ||| GDK_HINT_MAX_SIZE)])
    ∧ (r.win.resizable_ = true →
      (Resize n width height r).calls = r.calls ++
        [NativeCall.gdk_window_resize r.win.window_handler_
          (n.scaled width) (n.scaled height)]) := by
  obtain ⟨win, calls, logs⟩ := r
  obtain ⟨wh, a, b, c, d, res, e, f, g, lx, ly, k, u⟩ := win
  cases res
  · rcases h with h | ⟨hw, hh⟩
    · exact Bool.noConfusion h
    · simp [Resize, FrozeSize, Run.call, hw, hh]
  · simp [Resize, Run.call]

/-- Witness for `Resize_keeps_resizable`: a frozen window resized to 640x480. -/
theorem Resize_keeps_resizable_witness :
    (Resize sampleNative 640 480
        (Run.start { sampleWindow with resizable_ := false })).win.resizable_ = false :=
  (Resize_keeps_resizable sampleNative 640 480
    (Run.start { sampleWindow with resizable_ := false })
    (Or.inr ⟨by decide, by decide⟩)).1

/-! ## Nine-way placement -/

/-- The move-resize call `MoveResize` issues, with the anchors written out. -/
theorem MoveResize_moveResizeCalls (PADDING : Int) (n : Native) (position : Position)
    (width height : Int) (r : Run) :
    moveResizeCalls (MoveResize PADDING n position width height r).calls
      = moveResizeCalls r.calls ++
        [(r.win.window_handler_,
          specX PADDING n.monitor_rect.x n.monitor_rect.width (n.scaled width) position.column,
          specY PADDING n.monitor_rect.y n.monitor_rect.height (n.scaled height) position.row,
          n.scaled width, n.scaled height)] := by
  obtain ⟨win, calls, logs⟩ := r
  obtain ⟨wh, a, b, c, d, res, e, st, g, lx, ly, k, u⟩ := win
  cases position <;> cases u <;> cases st <;>
    simp [MoveResize, GetScreenRect, UnStick, Stick, Run.call, Run.log, moveResizeCalls,
      moveResizeArgs, specX, specY, Position.column, Position.row] <;> omega

/-- C4: `MoveResize` issues exactly one native move-resize.  Its x is the
horizontal anchor of the position (`sx+PADDING`, `sx+(sw-w)/2` or
`sx+sw-w-PADDING`), its y the vertical anchor (`sy+PADDING`, `sy+(sh-h)/2` or
`sy+sh-h-PADDING`), with truncating division, relative to the monitor rectangle
and the scaled size; its size is the scaled size; and a position outside the
nine leaves the same wrapper and issues the same calls as NORTH_WEST. -/
theorem MoveResize_placement (PADDING : Int) (n : Native) (position : Position)
    (width height : Int) (r : Run) :
    moveResizeCalls (MoveResize PADDING n position width height r).calls
      = moveResizeCalls r.calls ++
        [(r.win.window_handler_,
          specX PADDING n.monitor_rect.x n.monitor_rect.width (n.scaled width) position.column,
          specY PADDING n.monitor_rect.y n.monitor_rect.height (n.scaled height) position.row,
          n.scaled width, n.scaled height)]
    ∧ ∀ raw : Int,
        (MoveResize PADDING n (Position.UNKNOWN raw) width height r).calls
          = (MoveResize PADDING n Position.NORTH_WEST width height r).calls
        ∧ (MoveResize PADDING n (Position.UNKNOWN raw) width height r).win
          = (MoveResize PADDING n Position.NORTH_WEST width height r).win := by
  refine ⟨MoveResize_moveResizeCalls PADDING n position width height r, ?_⟩
  intro raw
  obtain ⟨win, calls, logs⟩ := r
  obtain ⟨wh, a, b, c, d, res, e, st, g, lx, ly, k, u⟩ := win
  cases u <;> cases st <;>
    simp [MoveResize, GetScreenRect, UnStick, Stick, Run.call, Run.log]

/-- C8: for every position and every non-negative padding, when the scaled
size fits the monitor with the padding on both sides, the one rectangle
`MoveResize` passes to the native move-resize lies inside the monitor
rectangle. -/
theorem MoveResize_inside_monitor (PADDING : Int) (n : Native) (position : Position)
    (width height : Int) (r : Run)
    (hp : 0 ≤ PADDING)
    (hw : n.scaled width + 2 * PADDING ≤ n.monitor_rect.width)
    (hh : n.scaled height + 2 * PADDING ≤ n.monitor_rect.height) :
    ∃ x y : Int,
      moveResizeCalls (MoveResize PADDING n position width height r).calls
        = moveResizeCalls r.calls ++
          [(r.win.window_handler_, x, y, n.scaled width, n.scaled height)]
      ∧ n.monitor_rect.x ≤ x
      ∧ x + n.scaled width ≤ n.monitor_rect.x + n.monitor_rect.width
      ∧ n.monitor_rect.y ≤ y
      ∧ y + n.scaled height ≤ n.monitor_rect.y + n.monitor_rect.height := by
  have hx : (n.monitor_rect.width - n.scaled width).tdiv 2
      = (n.monitor_rect.width - n.scaled width) / 2 :=
    Int.tdiv_eq_ediv (by omega) (by decide)
  have hy : (n.monitor_rect.height - n.scaled height).tdiv 2
      = (n.monitor_rect.height - n.scaled height) / 2 :=
    Int.tdiv_eq_ediv (by omega) (by decide)
  refine ⟨specX PADDING n.monitor_rect.x n.monitor_rect.width (n.scaled width) position.column,
    specY PADDING n.monitor_rect.y n.monitor_rect.height (n.scaled height) position.row,
    MoveResize_moveResizeCalls PADDING n position width height r, ?_⟩
  cases position <;>
    simp only [specX, specY, Position.column, Position.row, hx, hy] <;> omega

/-- Witness for `MoveResize_inside_monitor`: an 800x600 window placed SOUTH_EAST
with padding 10 on the 1920x1080 monitor. -/
theorem MoveResize_inside_monitor_witness :
    ∃ x y : Int,
      moveResizeCalls
          (MoveResize 10 sampleNative Position.SOUTH_EAST 800 600 (Run.start sampleWindow)).calls
        = moveResizeCalls (Run.start sampleWindow).calls ++ [(some 7, x, y, 800, 600)]
      ∧ 0 ≤ x ∧ x + 800 ≤ 0 + 1920 ∧ 0 ≤ y ∧ y + 600 ≤ 0 + 1080 :=
  MoveResize_inside_monitor 10 sampleNative Position.SOUTH_EAST 800 600 (Run.start sampleWindow)
    (by decide) (by decide) (by decide)

/-! ## The Unity work-around in `MoveResize` -/

/-- C7: `MoveResize` leaves the sticky flag as it was.  On Unity with a sticky
window the calls issued are, in this order, keep-above off, unstick,
move-resize, keep-above on, stick; in every other case the only call issued is
the move-resize. -/
theorem MoveResize_sticky (PADDING : Int) (n : Native) (position : Position)
    (width height : Int) (r : Run) :
    (MoveResize PADDING n position width height r).win.sticked_ = r.win.sticked_
    ∧ ∃ x y : Int,
        x = specX PADDING n.monitor_rect.x n.monitor_rect.width (n.scaled width) position.column
        ∧ y = specY PADDING n.monitor_rect.y n.monitor_rect.height (n.scaled height) position.row
        ∧ (r.win.on_unity_ = true ∧ r.win.sticked_ = true →
          (MoveResize PADDING n position width height r).calls = r.calls ++
            [NativeCall.gdk_window_set_keep_above r.win.window_handler_ false,
             NativeCall.gdk_window_unstick r.win.window_handler_,
             NativeCall.gdk_window_move_resize r.win.window_handler_ x y
               (n.scaled width) (n.scaled height),
             NativeCall.gdk_window_set_keep_above r.win.window_handler_ true,
             NativeCall.gdk_window_stick r.win.window_handler_])
        ∧ (¬ (r.win.on_unity_ = true ∧ r.win.sticked_ = true) →
          (MoveResize PADDING n position width height r).calls = r.calls ++
            [NativeCall.gdk_window_move_resize r.win.window_handler_ x y
               (n.scaled width) (n.scaled height)]) := by
  obtain ⟨win, calls, logs⟩ := r
  obtain ⟨wh, a, b, c, d, res, e, st, g, lx, ly, k, u⟩ := win
  cases position <;> cases u <;> cases st <;>
    simp [MoveResize, GetScreenRect, UnStick, Stick, Run.call, Run.log, specX, specY,
      Position.column, Position.row] <;> omega

/-- Witness for `MoveResize_sticky`: a sticky window on Unity. -/
theorem MoveResize_sticky_witness :
    (MoveResize 10 sampleNative Position.CENTER 800 600
      (Run.start { sampleWindow with on_unity_ := true, sticked_ := true })).win.sticked_
      = true :=
  (MoveResize_sticky 10 sampleNative Position.CENTER 800 600
    (Run.start { sampleWindow with on_unity_ := true, sticked_ := true })).1

/-! ## Frame lemmas: what each member function leaves alone -/

theorem SaveRestorePosition_handler (n : Native) (save : Bool) (r : Run) :
    (SaveRestorePosition n save r).win.window_handler_ = r.win.window_handler_ := by
  unfold SaveRestorePosition
  split_ifs <;> rfl

theorem Show_handler (n : Native) (r : Run) :
    (Show n r).win.window_handler_ = r.win.window_handler_ := by
  unfold Show
  dsimp only
  split_ifs
  · exact SaveRestorePosition_handler n false _
  · rfl

theorem Hide_handler (n : Native) (r : Run) :
    (Hide n r).win.window_handler_ = r.win.window_handler_ := by
  unfold Hide
  dsimp only
  split_ifs
  · exact SaveRestorePosition_handler n true _
  · rfl

theorem Present_handler (n : Native) (r : Run) :
    (Present n r).win.window_handler_ = r.win.window_handler_ := by
  unfold Present
  dsimp only
  split_ifs
  · exact Show_handler n r
  · exact Show_handler n r

theorem ToggleVisibility_handler (n : Native) (r : Run) :
    (ToggleVisibility n r).win.window_handler_ = r.win.window_handler_ := by
  unfold ToggleVisibility
  dsimp only
  split_ifs
  · exact Present_handler n r
  · exact Hide_handler n r

theorem FrozeSize_handler (n : Native) (width height : Int) (r : Run) :
    (FrozeSize n width height r).win.window_handler_ = r.win.window_handler_ := by
  unfold FrozeSize
  split_ifs <;> rfl

theorem Resize_handler (n : Native) (width height : Int) (r : Run) :
    (Resize n width height r).win.window_handler_ = r.win.window_handler_ := by
  unfold Resize
  cases r.win.resizable_
  · simp only [Bool.not_false, if_true]
    rw [FrozeSize_handler]
    exact FrozeSize_handler n 0 0 r
  · rfl

theorem OnNativeEvent_handler (n : Native) (event : BrowserWindowNativeEvent) (r : Run) :
    (OnNativeEvent n event r).win.window_handler_ = r.win.window_handler_ := by
  cases event <;> rfl

theorem MoveResize_handler (PADDING : Int) (n : Native) (position : Position)
    (width height : Int) (r : Run) :
    (MoveResize PADDING n position width height r).win.window_handler_
      = r.win.window_handler_ := by
  obtain ⟨win, calls, logs⟩ := r
  obtain ⟨wh, a, b, c, d, res, e, st, g, lx, ly, k, u⟩ := win
  cases position <;> cases u <;> cases st <;> rfl

theorem WrapNative_wrapped (n : Native) (window : CefWindowHandle) (r : Run)
    (h : r.win.window_handler_.isSome = true) :
    WrapNative n window r = (false, r.log LogLevel.ERROR
      "Browser window already have native window. Can't wrap one more window.") := by
  simp [WrapNative, h]

/-- No member function changes the stored handle of a wrapper that holds
one. -/
theorem perform_handler (PADDING : Int) (n : Native) (op : Op) (r : Run)
    (h : r.win.window_handler_.isSome = true) :
    (perform PADDING n op r).win.window_handler_ = r.win.window_handler_ := by
  cases op with
  | WrapNative window => simp [perform, WrapNative_wrapped n window r h, Run.log]
  | Resize width height => exact Resize_handler n width height r
  | FrozeSize width height => exact FrozeSize_handler n width height r
  | Present => exact Present_handler n r
  | Show => exact Show_handler n r
  | Hide => exact Hide_handler n r
  | OnNativeEvent event => exact OnNativeEvent_handler n event r
  | ToggleVisibility => exact ToggleVisibility_handler n r
  | SaveRestorePosition save => exact SaveRestorePosition_handler n save r
  | MoveResize position width height =>
    exact MoveResize_handler PADDING n position width height r
  | _ => rfl

theorem performAll_handler (PADDING : Int) (later : List (Native × Op)) (r : Run)
    (h : r.win.window_handler_.isSome = true) :
    (performAll PADDING later r).win.window_handler_ = r.win.window_handler_ := by
  induction later generalizing r with
  | nil => rfl
  | cons e rest ih =>
    obtain ⟨n, op⟩ := e
    have hstep := perform_handler PADDING n op r h
    simp only [performAll]
    rw [ih (perform PADDING n op r) (by rw [hstep]; exact h), hstep]

/-! ## One native handle for the wrapper's lifetime -/

/-- C5: once `WrapNative` has succeeded, whatever member functions are called
afterwards (further `WrapNative` calls and `Close` among them), the stored
handle is the one wrapped, and a `WrapNative` call then, for any handle and any
answer of the toolkit, returns false, leaves every field of the wrapper
unchanged and issues no toolkit call. -/
theorem WrapNative_once (PADDING : Int) (n : Native) (window : CefWindowHandle) (r : Run)
    (hok : (WrapNative n window r).1 = true)
    (later : List (Native × Op)) (n2 : Native) (window2 : CefWindowHandle) :
    (performAll PADDING later (WrapNative n window r).2).win.window_handler_
      = (WrapNative n window r).2.win.window_handler_
    ∧ (performAll PADDING later (WrapNative n window r).2).win.window_handler_
      = n.gdk_window_foreign_new window
    ∧ (WrapNative n2 window2 (performAll PADDING later (WrapNative n window r).2)).1 = false
    ∧ (WrapNative n2 window2 (performAll PADDING later (WrapNative n window r).2)).2.win
      = (performAll PADDING later (WrapNative n window r).2).win
    ∧ (WrapNative n2 window2 (performAll PADDING later (WrapNative n window r).2)).2.calls
      = (performAll PADDING later (WrapNative n window r).2).calls := by
  have hstored : (WrapNative n window r).2.win.window_handler_ = n.gdk_window_foreign_new window
      ∧ (WrapNative n window r).2.win.window_handler_.isSome = true := by
    cases hw : r.win.window_handler_ with
    | some g0 => simp [WrapNative, hw] at hok
    | none =>
      cases hf : n.gdk_window_foreign_new window with
      | none => simp [WrapNative, hw, hf, Run.call, Run.log] at hok
      | some g => simp [WrapNative, hw, hf, Run.call]
  have hkeep := performAll_handler PADDING later (WrapNative n window r).2 hstored.2
  have hsome : (performAll PADDING later
      (WrapNative n window r).2).win.window_handler_.isSome = true := by
    rw [hkeep]; exact hstored.2
  refine ⟨hkeep, hkeep.trans hstored.1, ?_, ?_, ?_⟩ <;>
    simp [WrapNative_wrapped n2 window2 _ hsome, Run.log]

/-- Witness for `WrapNative_once`: a fresh wrapper wraps X11 window 5, is
hidden, closed and asked to wrap X11 window 6. -/
theorem WrapNative_once_witness :
    (WrapNative sampleNative 6
      (performAll 10 [(sampleNative, Op.Hide), (sampleNative, Op.Close),
          (sampleNative, Op.WrapNative 6)]
        (WrapNative sampleNative 5
          (Run.start (BrowserWindow.new DesktopEnvironment.OTHER))).2)).1 = false :=
  (WrapNative_once 10 sampleNative 5 (Run.start (BrowserWindow.new DesktopEnvironment.OTHER))
    (by decide)
    [(sampleNative, Op.Hide), (sampleNative, Op.Close), (sampleNative, Op.WrapNative 6)]
    sampleNative 6).2.2.1

/-! ## Saving and restoring the position -/

theorem FrozeSize_saved (n : Native) (width height : Int) (r : Run) :
    (FrozeSize n width height r).win.last_x_ = r.win.last_x_
    ∧ (FrozeSize n width height r).win.last_y_ = r.win.last_y_
    ∧ (FrozeSize n width height r).win.restore_last_position_
      = r.win.restore_last_position_ := by
  unfold FrozeSize
  split_ifs <;> exact ⟨rfl, rfl, rfl⟩

theorem Resize_saved (n : Native) (width height : Int) (r : Run) :
    (Resize n width height r).win.last_x_ = r.win.last_x_
    ∧ (Resize n width height r).win.last_y_ = r.win.last_y_
    ∧ (Resize n width height r).win.restore_last_position_
      = r.win.restore_last_position_ := by
  unfold Resize
  cases r.win.resizable_
  · simp only [Bool.not_false, if_true]
    have h1 := FrozeSize_saved n 0 0 r
    have h2 := FrozeSize_saved n width height
      ((FrozeSize n 0 0 r).call (NativeCall.gdk_window_resize
        (FrozeSize n 0 0 r).win.window_handler_ (n.scaled width) (n.scaled height)))
    exact ⟨h2.1.trans h1.1, h2.2.1.trans h1.2.1, h2.2.2.trans h1.2.2⟩
  · exact ⟨rfl, rfl, rfl⟩

theorem WrapNative_saved (n : Native) (window : CefWindowHandle) (r : Run) :
    (WrapNative n window r).2.win.last_x_ = r.win.last_x_
    ∧ (WrapNative n window r).2.win.last_y_ = r.win.last_y_
    ∧ (WrapNative n window r).2.win.restore_last_position_
      = r.win.restore_last_position_ := by
  unfold WrapNative
  dsimp only
  split_ifs <;> exact ⟨rfl, rfl, rfl⟩

theorem MoveResize_saved (PADDING : Int) (n : Native) (position : Position)
    (width height : Int) (r : Run) :
    (MoveResize PADDING n position width height r).win.last_x_ = r.win.last_x_
    ∧ (MoveResize PADDING n position width height r).win.last_y_ = r.win.last_y_
    ∧ (MoveResize PADDING n position width height r).win.restore_last_position_
      = r.win.restore_last_position_ := by
  obtain ⟨win, calls, logs⟩ := r
  obtain ⟨wh, a, b, c, d, res, e, st, g, lx, ly, k, u⟩ := win
  cases position <;> cases u <;> cases st <;> exact ⟨rfl, rfl, rfl⟩

/-- A member function that does not use the saved position leaves it as it
is. -/
theorem perform_saved (PADDING : Int) (n : Native) (op : Op) (r : Run)
    (h : op.usesSavedPosition = false) :
    (perform PADDING n op r).win.last_x_ = r.win.last_x_
    ∧ (perform PADDING n op r).win.last_y_ = r.win.last_y_
    ∧ (perform PADDING n op r).win.restore_last_position_
      = r.win.restore_last_position_ := by
  cases op with
  | WrapNative window => exact WrapNative_saved n window r
  | Resize width height => exact Resize_saved n width height r
  | FrozeSize width height => exact FrozeSize_saved n width height r
  | OnNativeEvent event => cases event <;> exact ⟨rfl, rfl, rfl⟩
  | MoveResize position width height =>
    exact MoveResize_saved PADDING n position width height r
  | Present => simp [Op.usesSavedPosition] at h
  | Show => simp [Op.usesSavedPosition] at h
  | Hide => simp [Op.usesSavedPosition] at h
  | ToggleVisibility => simp [Op.usesSavedPosition] at h
  | SaveRestorePosition save => simp [Op.usesSavedPosition] at h
  | _ => exact ⟨rfl, rfl, rfl⟩

theorem performAll_saved (PADDING : Int) (between : List (Native × Op)) (r : Run)
    (h : ∀ e ∈ between, e.2.usesSavedPosition = false) :
    (performAll PADDING between r).win.last_x_ = r.win.last_x_
    ∧ (performAll PADDING between r).win.last_y_ = r.win.last_y_
    ∧ (performAll PADDING between r).win.restore_last_position_
      = r.win.restore_last_position_ := by
  induction between generalizing r with
  | nil => exact ⟨rfl, rfl, rfl⟩
  | cons e rest ih =>
    obtain ⟨n, op⟩ := e
    have hstep := perform_saved PADDING n op r (h (n, op) (List.mem_cons_self _ _))
    have hrest := ih (perform PADDING n op r)
      (fun e he => h e (List.mem_cons_of_mem _ he))
    simp only [performAll]
    exact ⟨hrest.1.trans hstep.1, hrest.2.1.trans hstep.2.1, hrest.2.2.trans hstep.2.2⟩

/-- `SaveRestorePosition(false)` does nothing when the restore is not due. -/
theorem SaveRestorePosition_not_due (n : Native) (r : Run) (hd : ¬ restoreDue n r.win) :
    SaveRestorePosition n false r = r := by
  have hd2 : ¬ (r.win.restore_last_position_ = true
      ∧ r.win.last_x_ ≥ 0 ∧ r.win.last_x_ < n.gdk_screen_width - 60
      ∧ r.win.last_y_ ≥ 0 ∧ r.win.last_y_ < n.gdk_screen_height - 60) := by
    intro hc
    exact hd ⟨hc.1, ⟨hc.2.1, hc.2.2.1⟩, hc.2.2.2.1, hc.2.2.2.2⟩
  unfold SaveRestorePosition
  rw [if_neg (by decide), if_neg hd2]

/-- What an unhandled `Show` does, by whether the restore is due. -/
theorem Show_unhandled (n : Native) (r : Run) (hs : n.OnShow = false) :
    (restoreDue n r.win →
      (Show n r).calls = r.calls ++
        [NativeCall.gdk_window_show r.win.window_handler_,
         NativeCall.gdk_window_move r.win.window_handler_ r.win.last_x_ r.win.last_y_]
      ∧ (Show n r).win = { r.win with restore_last_position_ := false })
    ∧ (¬ restoreDue n r.win →
      (Show n r).calls = r.calls ++ [NativeCall.gdk_window_show r.win.window_handler_]
      ∧ (Show n r).win = r.win) := by
  constructor
  · intro hd
    obtain ⟨h1, ⟨h2, h3⟩, h4, h5⟩ := hd
    simp [Show, SaveRestorePosition, hs, Run.call, h1, h2, h3, h4, h5]
  · intro hd
    have hshow : Show n r = SaveRestorePosition n false
        (r.call (NativeCall.gdk_window_show r.win.window_handler_)) := by
      simp [Show, hs]
    rw [hshow, SaveRestorePosition_not_due n
      (r.call (NativeCall.gdk_window_show r.win.window_handler_)) hd]
    exact ⟨rfl, rfl⟩

/-- C6: an unhandled `Show` issues the show call and then moves the window to
the saved position if and only if a restore is pending and the saved position
satisfies `0 <= last_x < screen_width-60` and `0 <= last_y < screen_height-60`.
When the move is made the restore-pending flag is cleared and nothing else
changes; when it is not made no field changes, so the restore stays pending
with the same `last_x`, `last_y`. -/
theorem Show_restores_iff_due (n : Native) (r : Run) (hs : n.OnShow = false) :
    ((Show n r).calls = r.calls ++
        [NativeCall.gdk_window_show r.win.window_handler_,
         NativeCall.gdk_window_move r.win.window_handler_ r.win.last_x_ r.win.last_y_]
      ↔ restoreDue n r.win)
    ∧ ((Show n r).calls = r.calls ++ [NativeCall.gdk_window_show r.win.window_handler_]
      ↔ ¬ restoreDue n r.win)
    ∧ (restoreDue n r.win → (Show n r).win = { r.win with restore_last_position_ := false })
    ∧ (¬ restoreDue n r.win → (Show n r).win = r.win) := by
  have h := Show_unhandled n r hs
  by_cases hd : restoreDue n r.win
  · have h1 := h.1 hd
    refine ⟨⟨fun _ => hd, fun _ => h1.1⟩, ⟨?_, fun hn => absurd hd hn⟩,
      fun _ => h1.2, fun hn => absurd hd hn⟩
    intro hc
    rw [h1.1] at hc
    simp at hc
  · have h2 := h.2 hd
    refine ⟨⟨?_, fun hy => absurd hy hd⟩, ⟨fun _ => hd, fun _ => h2.1⟩,
      fun hy => absurd hy hd, fun _ => h2.2⟩
    intro hc
    rw [h2.1] at hc
    simp at hc

/-- Witness for `Show_restores_iff_due`: a restore to (2000, 20) is pending on
a 1920x1080 screen; the window is shown, not moved, and the restore stays
pending. -/
theorem Show_restores_iff_due_witness :
    (Show sampleNative (Run.start { sampleWindow with
        restore_last_position_ := true, last_x_ := 2000, last_y_ := 20 })).win
      = { sampleWindow with restore_last_position_ := true, last_x_ := 2000, last_y_ := 20 } :=
  (Show_restores_iff_due sampleNative (Run.start { sampleWindow with
      restore_last_position_ := true, last_x_ := 2000, last_y_ := 20 }) rfl).2.2.2
    (by decide)

/-- C2, as stated, fails: the frame is at (-10, 20); an unhandled `Hide`
records that position, and the unhandled `Show` that follows issues the show
call only, no move, and leaves the restore pending. -/
theorem Hide_Show_off_screen_not_moved :
    offScreenNative.OnHide = false ∧ sampleNative.OnShow = false
    ∧ (Hide offScreenNative (Run.start sampleWindow)).win.last_x_ = -10
    ∧ (Hide offScreenNative (Run.start sampleWindow)).win.last_y_ = 20
    ∧ (Show sampleNative (Hide offScreenNative (Run.start sampleWindow))).calls
      = [NativeCall.gdk_window_hide (some 7), NativeCall.gdk_window_show (some 7)]
    ∧ (Show sampleNative
        (Hide offScreenNative (Run.start sampleWindow))).win.restore_last_position_ = true := by
  decide

/-- C2, amended: when neither `OnHide` nor `OnShow` handles the request, `Hide`
records the frame-extents position (x, y) and marks the restore pending; and
if `0 <= x < screen_width-60` and `0 <= y < screen_height-60` hold at the next
`Show` (any member functions that do not use the saved position may run in
between), that `Show` moves the window to exactly the recorded position. -/
theorem Hide_then_Show_restores (PADDING : Int) (nh ns : Native)
    (between : List (Native × Op)) (r : Run)
    (hh : nh.OnHide = false) (hs : ns.OnShow = false)
    (hb : ∀ e ∈ between, e.2.usesSavedPosition = false)
    (hx : 0 ≤ nh.frame_extents.x ∧ nh.frame_extents.x < ns.gdk_screen_width - 60)
    (hy : 0 ≤ nh.frame_extents.y ∧ nh.frame_extents.y < ns.gdk_screen_height - 60) :
    (Hide nh r).win.last_x_ = nh.frame_extents.x
    ∧ (Hide nh r).win.last_y_ = nh.frame_extents.y
    ∧ (Hide nh r).win.restore_last_position_ = true
    ∧ (Hide nh r).calls = r.calls ++ [NativeCall.gdk_window_hide r.win.window_handler_]
    ∧ (Show ns (performAll PADDING between (Hide nh r))).calls
      = (performAll PADDING between (Hide nh r)).calls ++
        [NativeCall.gdk_window_show
           (performAll PADDING between (Hide nh r)).win.window_handler_,
         NativeCall.gdk_window_move
           (performAll PADDING between (Hide nh r)).win.window_handler_
           nh.frame_extents.x nh.frame_extents.y] := by
  have hx0 : (Hide nh r).win.last_x_ = nh.frame_extents.x := by
    simp [Hide, SaveRestorePosition, hh, Run.call]
  have hy0 : (Hide nh r).win.last_y_ = nh.frame_extents.y := by
    simp [Hide, SaveRestorePosition, hh, Run.call]
  have hr0 : (Hide nh r).win.restore_last_position_ = true := by
    simp [Hide, SaveRestorePosition, hh, Run.call]
  have hc0 : (Hide nh r).calls = r.calls ++ [NativeCall.gdk_window_hide r.win.window_handler_] := by
    simp [Hide, SaveRestorePosition, hh, Run.call]
  have hsaved := performAll_saved PADDING between (Hide nh r) hb
  have hdue : restoreDue ns (performAll PADDING between (Hide nh r)).win := by
    unfold restoreDue
    rw [hsaved.1, hsaved.2.1, hsaved.2.2, hx0, hy0, hr0]
    exact ⟨rfl, hx, hy⟩
  have hshow := (Show_unhandled ns (performAll PADDING between (Hide nh r)) hs).1 hdue
  refine ⟨hx0, hy0, hr0, hc0, ?_⟩
  rw [hshow.1, hsaved.1, hsaved.2.1, hx0, hy0]

/-- Witness for `Hide_then_Show_restores`: the frame is at (40, 30); the window
is hidden, resized while hidden, and shown again. -/
theorem Hide_then_Show_restores_witness :
    (Show sampleNative
      (performAll 10 [(sampleNative, Op.Resize 640 480)]
        (Hide sampleNative (Run.start sampleWindow)))).calls
      = (performAll 10 [(sampleNative, Op.Resize 640 480)]
          (Hide sampleNative (Run.start sampleWindow))).calls ++
        [NativeCall.gdk_window_show
           (performAll 10 [(sampleNative, Op.Resize 640 480)]
             (Hide sampleNative (Run.start sampleWindow))).win.window_handler_,
         NativeCall.gdk_window_move
           (performAll 10 [(sampleNative, Op.Resize 640 480)]
             (Hide sampleNative (Run.start sampleWindow))).win.window_handler_
           40 30] :=
  (Hide_then_Show_restores 10 sampleNative sampleNative [(sampleNative, Op.Resize 640 480)]
    (Run.start sampleWindow) rfl rfl (by decide) (by decide) (by decide)).2.2.2.2

/-! ## Toggling visibility -/

/-- The mask test of `ToggleVisibility` is non-zero exactly when the iconified
bit (bit 1) or the withdrawn bit (bit 0) of the window state is set. -/
theorem state_mask (st : Nat) :
    st &&& (GDK_WINDOW_STATE_ICONIFIED ||| GDK_WINDOW_STATE_WITHDRAWN) ≠ 0
      ↔ (st.testBit 1 = true ∨ st.testBit 0 = true) := by
  have hm : (GDK_WINDOW_STATE_ICONIFIED ||| GDK_WINDOW_STATE_WITHDRAWN) = 2 ^ 2 - 1 := by
    decide
  rw [hm, Nat.and_pow_two_sub_one_eq_mod, Nat.testBit_succ, Nat.testBit_zero, Nat.testBit_zero]
  simp only [decide_eq_true_eq]
  omega

/-- C10: `ToggleVisibility` performs `Hide` if and only if the hidden flag is
false, the visible flag is true, the native window state is neither iconified
nor withdrawn, and `IsActive` holds; otherwise it performs `Present`.
`Present` is `Show` followed by `SetActive` exactly when the hidden flag is
false after `Show`, and `IsActive` is true when the screen reports no active
window. -/
theorem ToggleVisibility_cases (n : Native) (r : Run) :
    (hidesOnToggle n r → ToggleVisibility n r = Hide n r)
    ∧ (¬ hidesOnToggle n r → ToggleVisibility n r = Present n r)
    ∧ ((Show n r).win.hided_ = false → Present n r = SetActive n (Show n r))
    ∧ ((Show n r).win.hided_ = true → Present n r = Show n r)
    ∧ (n.active_window = none → IsActive n r = true) := by
  have hmask := state_mask n.gdk_window_get_state
  refine ⟨?_, ?_, ?_, ?_, ?_⟩
  · rintro ⟨h1, h2, ⟨h3, h4⟩, h5⟩
    have hz : n.gdk_window_get_state
        &&& (GDK_WINDOW_STATE_ICONIFIED ||| GDK_WINDOW_STATE_WITHDRAWN) = 0 := by
      by_contra hne
      rcases hmask.1 hne with hb | hb
      · rw [h3] at hb; exact absurd hb (by decide)
      · rw [h4] at hb; exact absurd hb (by decide)
    simp [ToggleVisibility, h1, h2, h5, hz]
  · intro hn
    unfold ToggleVisibility
    dsimp only
    split_ifs with hc
    · rfl
    · exfalso
      apply hn
      simp only [Bool.or_eq_true, Bool.not_eq_true', decide_eq_true_eq, not_or,
        Bool.not_eq_false, Bool.not_eq_true, Decidable.not_not] at hc
      obtain ⟨⟨⟨h1, h2⟩, h3⟩, h4⟩ := hc
      have hb : ¬ (n.gdk_window_get_state.testBit 1 = true
          ∨ n.gdk_window_get_state.testBit 0 = true) := fun hb => (hmask.2 hb) h3
      refine ⟨h1, h2, ⟨?_, ?_⟩, h4⟩
      · cases hbit : n.gdk_window_get_state.testBit 1
        · rfl
        · exact absurd (Or.inl hbit) hb
      · cases hbit : n.gdk_window_get_state.testBit 0
        · rfl
        · exact absurd (Or.inr hbit) hb
  · intro h
    simp [Present, h]
  · intro h
    simp [Present, h]
  · intro h
    simp [IsActive, h]

/-- Witness for `ToggleVisibility_cases`: a mapped, visible window with no
active window reported is hidden. -/
theorem ToggleVisibility_cases_witness :
    ToggleVisibility sampleNative (Run.start sampleWindow)
      = Hide sampleNative (Run.start sampleWindow) :=
  (ToggleVisibility_cases sampleNative (Run.start sampleWindow)).1 (by decide)

end Brick
